import Mathlib

/-!
Verification of the comment-analysis pipeline (`src/main.py`).

The embedding models the module's functions over explicit representations
of their external effects:

* the language-model completion is an oracle value (`LMResponse`):
  either the call failed / its content was unparsable JSON, or it yielded
  a JSON object with optional `summary` and `sentiment` string fields;
* the persisted collection file is a `FileState` (absent, present with
  unparsable contents, or present with a parsed JSON value);
* `str.strip()`, `str.lower()` and `s[:80]` are modelled on the character
  list of the string;
* timestamps are opaque strings supplied by the environment.
-/

/-- JSON values, as produced by `json.load` / consumed by `json.dump`. -/
inductive Json where
  | null
  | bool (b : Bool)
  | str (s : String)
  | num (n : Int)
  | arr (elts : List Json)
  | obj (fields : List (String × Json))

/-- Model of Python `s[:80]`: the first 80 characters of the string. -/
def take80 (s : String) : String :=
  ⟨s.data.take 80⟩

/-- Model of Python `str.strip()`: drop whitespace at both ends. -/
def pyStrip (s : String) : String :=
  ⟨((s.data.dropWhile Char.isWhitespace).reverse.dropWhile Char.isWhitespace).reverse⟩

/-- Model of Python `str.lower()` on the characters of the string. -/
def pyLower (s : String) : String :=
  ⟨s.data.map Char.toLower⟩

/-- Result dictionary of `analyze_with_ai`: always a `summary` and a
`sentiment` string. -/
structure AnalysisResult where
  summary : String
  sentiment : String
deriving DecidableEq, Repr

/-- Oracle for one language-model call, seen from `analyze_with_ai`:
`failure err` covers an API exception, a timeout, or content that
`json.loads` rejects (all land in the same `except` branch, `err` being
`str(e)`); `success sm st` is a parsed JSON object whose `summary` and
`sentiment` fields, when present, hold the given strings. -/
inductive LMResponse where
  | failure (err : String)
  | success (sm : Option String) (st : Option String)
deriving DecidableEq, Repr

/-- `analyze_with_ai` (src/main.py lines 32-58): on success, read
`summary` (default `"No summary available"`) and `sentiment` (default
`"neutral"`, lowercased); on any exception return the degraded result
`{"summary": "AI failed: " + str(e)[:80], "sentiment": "neutral"}`. -/
def analyze_with_ai : LMResponse → AnalysisResult
  | .failure err => ⟨"AI failed: " ++ take80 err, "neutral"⟩
  | .success sm st => ⟨sm.getD "No summary available", pyLower (st.getD "neutral")⟩

/-- State of the storage file `processed_comments.json`:
missing, present but not parsable as JSON, or present with a parsed value. -/
inductive FileState where
  | absent
  | corrupt
  | valid (j : Json)

/-- The read phase of `store_result` (lines 63-69): no file or unparsable
JSON gives `data = []`; a JSON array gives its elements; any other JSON
value is returned by `json.load` but then `data.append` raises
(`none` marks that failure path). -/
def loadData : FileState → Option (List Json)
  | .absent => some []
  | .corrupt => some []
  | .valid (Json.arr l) => some l
  | .valid _ => none

/-- `record = {**item, "source": source}` (line 62): the item's pairs with
the `source` field appended. -/
def mkRecord (item : List (String × Json)) (source : String) : List (String × Json) :=
  item ++ [("source", Json.str source)]

/-- `store_result` (lines 60-75). `writeOk` is the oracle for the write
phase (open for writing plus `json.dump`): when it fails, or when the
loaded data is not a list, the bare `except` returns `False` and the file
keeps its previous state; otherwise the appended collection is written and
the call returns `True`. -/
def store_result (fs : FileState) (writeOk : Bool) (item : List (String × Json))
    (source : String) : FileState × Bool :=
  match loadData fs with
  | none => (fs, false)
  | some data =>
    if writeOk then
      (FileState.valid (Json.arr (data ++ [Json.obj (mkRecord item source)])), true)
    else (fs, false)

/-- `send_notification` (lines 77-85): log-write failures are swallowed
and the function always returns `True`. -/
def send_notification (_email : String) (_success : Bool) : Bool :=
  true

/-- The `body` field of one fetched comment, as the per-comment loop sees
it: missing (`comment.get("body", "")` yields `""`), a string, or a
non-string JSON value, on which `.strip()` raises an exception whose
`str(e)` is `err`. -/
inductive Body where
  | absent
  | str (s : String)
  | notStr (err : String)
deriving DecidableEq, Repr

/-- One fetched comment together with the oracle values its processing
consumes: the language-model response used if it is analyzed, the outcome
of the storage write, and the `utcnow` timestamp string taken when its
item is built. -/
structure CommentEnv where
  body : Body
  lm : LMResponse
  writeOk : Bool
  ts : String
deriving DecidableEq, Repr

/-- The item dictionary built at src/main.py lines 104-110 (its `stored`
key is mutated at line 111 with the store's result). -/
structure ProcessedItem where
  original : String
  analysis : String
  sentiment : String
  stored : Bool
  timestamp : String
deriving DecidableEq, Repr

/-- The key/value pairs of the item dictionary, in the order of the
literal at lines 104-110. -/
def itemPairs (it : ProcessedItem) : List (String × Json) :=
  [("original", Json.str it.original),
   ("analysis", Json.str it.analysis),
   ("sentiment", Json.str it.sentiment),
   ("stored", Json.bool it.stored),
   ("timestamp", Json.str it.timestamp)]

/-- Dictionary lookup on a JSON object's field list. -/
def getField (key : String) : List (String × Json) → Option Json
  | [] => none
  | (k, v) :: rest => if key = k then some v else getField key rest

/-- `fetch_comments` (lines 21-30): on HTTP/JSON success return the first
3 records; any exception `e` is re-raised as `"Fetch failed: " + str(e)`.
The HTTP layer is the oracle `httpResult`. -/
def fetch_comments (httpResult : Except String (List CommentEnv)) :
    Except String (List CommentEnv) :=
  match httpResult with
  | .ok data => .ok (data.take 3)
  | .error e => .error ("Fetch failed: " ++ e)

/-- Result of the per-comment loop (lines 98-114): the `items` and
`errors` lists it builds, the final storage-file state, and the records
actually written to the file, in write order. -/
structure LoopResult where
  items : List ProcessedItem
  errors : List String
  fs : FileState
  written : List (List (String × Json))

/-- The per-comment loop (lines 98-114). A non-string body raises inside
the `try`, appending `"Comment error: " + str(e)[:80]`; a missing body or
one whose stripped text is empty is skipped; otherwise the comment is
analyzed, an item is built with `stored = False`, the record is stored
(the store's boolean result then overwrites `stored`), and the item is
appended. -/
def processComments (source : String) : List CommentEnv → FileState → LoopResult
  | [], fs => ⟨[], [], fs, []⟩
  | c :: rest, fs =>
    match c.body with
    | Body.notStr err =>
      let r := processComments source rest fs
      ⟨r.items, ("Comment error: " ++ take80 err) :: r.errors, r.fs, r.written⟩
    | Body.absent => processComments source rest fs
    | Body.str s =>
      let text := pyStrip s
      if text = "" then processComments source rest fs
      else
        let ai := analyze_with_ai c.lm
        let item0 : ProcessedItem := ⟨text, ai.summary, ai.sentiment, false, c.ts⟩
        let res := store_result fs c.writeOk (itemPairs item0) source
        let item : ProcessedItem := { item0 with stored := res.2 }
        let r := processComments source rest res.1
        ⟨item :: r.items, r.errors, r.fs,
         (if res.2 then [mkRecord (itemPairs item0) source] else []) ++ r.written⟩

/-- The response dictionary returned by `run_pipeline` (lines 118-123). -/
structure PipelineResponse where
  items : List ProcessedItem
  notificationSent : Bool
  processedAt : String
  errors : List String
deriving DecidableEq, Repr

/-- `run_pipeline` (lines 87-123): fetch (a failure becomes one error
entry and an empty comment list), run the per-comment loop, notify with
`len(items) > 0`, and return the response. Besides the response, the
model returns the final file state and the written records. -/
def run_pipeline (httpResult : Except String (List CommentEnv))
    (_email source processedAt : String) (fs0 : FileState) :
    PipelineResponse × FileState × List (List (String × Json)) :=
  let fetched : List CommentEnv × List String :=
    match fetch_comments httpResult with
    | .ok cs => (cs, [])
    | .error e => ([], [e])
  let r := processComments source fetched.1 fs0
  let sent := send_notification _email (decide (0 < r.items.length))
  (⟨r.items, sent, processedAt, fetched.2 ++ r.errors⟩, r.fs, r.written)

/-- The comment list the loop actually iterates over. -/
def fetchedComments (httpResult : Except String (List CommentEnv)) : List CommentEnv :=
  match fetch_comments httpResult with
  | .ok cs => cs
  | .error _ => []

/-- Number of error entries the fetch phase contributes. -/
def fetchErrorCount (httpResult : Except String (List CommentEnv)) : Nat :=
  match fetch_comments httpResult with
  | .ok _ => 0
  | .error _ => 1

/-- A comment the loop skips silently: body missing, or stripped text
empty. -/
def Body.isSkip : Body → Bool
  | .absent => true
  | .str s => pyStrip s == ""
  | .notStr _ => false

/-- A comment whose processing raises, adding a per-comment error entry. -/
def Body.isErr : Body → Bool
  | .notStr _ => true
  | _ => false

/-- A comment that yields a ProcessedItem. -/
def Body.isProc : Body → Bool
  | .str s => pyStrip s != ""
  | _ => false

/-- A comment with a well-formed body and a well-formed model response,
whose storage write succeeds. -/
def okComment : CommentEnv :=
  ⟨Body.str " hello world ", LMResponse.success (some "A greeting.") (some "Positive"), true, "T1"⟩

/-- A comment for which the model call succeeds but returns a sentiment
string outside the three-value enum. -/
def mixedComment : CommentEnv :=
  ⟨Body.str "Quite the product", LMResponse.success (some "A mixed take.") (some "Mixed"), true, "T2"⟩


/-- Number of comments in the list the loop skips silently. -/
def countSkip : List CommentEnv → Nat
  | [] => 0
  | c :: rest => (if c.body.isSkip then 1 else 0) + countSkip rest

/-- Number of comments in the list whose processing raises. -/
def countErr : List CommentEnv → Nat
  | [] => 0
  | c :: rest => (if c.body.isErr then 1 else 0) + countErr rest

/-- Number of comments in the list that yield a ProcessedItem. -/
def countProc : List CommentEnv → Nat
  | [] => 0
  | c :: rest => (if c.body.isProc then 1 else 0) + countProc rest

/-- Each comment falls in exactly one of the three classes: processed,
skipped, errored. -/
lemma counts_partition (cs : List CommentEnv) :
    countProc cs + countSkip cs + countErr cs = cs.length := by
  induction cs with
  | nil => rfl
  | cons c rest ih =>
    obtain ⟨b, lm, w, ts⟩ := c
    cases b with
    | notStr err =>
      simp [countProc, countSkip, countErr, Body.isProc, Body.isSkip, Body.isErr]
      omega
    | absent =>
      simp [countProc, countSkip, countErr, Body.isProc, Body.isSkip, Body.isErr]
      omega
    | str s =>
      by_cases h : pyStrip s = "" <;>
        simp [countProc, countSkip, countErr, Body.isProc, Body.isSkip, Body.isErr,
          List.length_cons, h] <;>
        omega

/-- The loop produces one item per comment whose stripped body is a
non-empty string. -/
lemma processComments_items_length (source : String) (cs : List CommentEnv) (fs : FileState) :
    (processComments source cs fs).items.length = countProc cs := by
  induction cs generalizing fs with
  | nil => rfl
  | cons c rest ih =>
    obtain ⟨b, lm, w, ts⟩ := c
    cases b with
    | notStr err =>
      simp only [processComments, countProc, Body.isProc]
      simpa using ih fs
    | absent =>
      simp only [processComments, countProc, Body.isProc]
      simpa using ih fs
    | str s =>
      by_cases h : pyStrip s = ""
      · simp only [processComments, countProc, Body.isProc]
        simp [h, ih fs]
      · simp only [processComments, countProc, Body.isProc]
        simp only [h, if_false]
        simp [h, List.length_cons, ih]
        omega

/-- The loop produces one error entry per comment whose body raises. -/
lemma processComments_errors_length (source : String) (cs : List CommentEnv) (fs : FileState) :
    (processComments source cs fs).errors.length = countErr cs := by
  induction cs generalizing fs with
  | nil => rfl
  | cons c rest ih =>
    obtain ⟨b, lm, w, ts⟩ := c
    cases b with
    | notStr err =>
      have := ih fs
      simp only [processComments, countErr, Body.isErr]
      simp
      omega
    | absent =>
      simp only [processComments, countErr, Body.isErr]
      simpa using ih fs
    | str s =>
      by_cases h : pyStrip s = ""
      · simp only [processComments, countErr, Body.isErr]
        simp [h, ih fs]
      · simp only [processComments, countErr, Body.isErr]
        simp [h, ih]

/-- Every item built by the loop has as `original` the non-empty stripped
body text of its comment. -/
lemma processComments_mem_items (source : String) (cs : List CommentEnv) (fs : FileState)
    (it : ProcessedItem) (hit : it ∈ (processComments source cs fs).items) :
    it.original ≠ "" := by
  induction cs generalizing fs with
  | nil => exact absurd hit (List.not_mem_nil it)
  | cons c rest ih =>
    obtain ⟨b, lm, w, ts⟩ := c
    cases b with
    | notStr err =>
      simp only [processComments] at hit
      exact ih fs hit
    | absent =>
      simp only [processComments] at hit
      exact ih fs hit
    | str s =>
      by_cases h : pyStrip s = ""
      · simp only [processComments, h, if_true] at hit
        exact ih fs hit
      · simp only [processComments, h, if_false] at hit
        rw [List.mem_cons] at hit
        rcases hit with hit | hit
        · subst hit
          exact h
        · exact ih _ hit

/-- Every record the loop writes to the file is some item's pairs, with
the item's `stored` field still `false`, merged with the `source` field. -/
lemma processComments_mem_written (source : String) (cs : List CommentEnv) (fs : FileState)
    (r : List (String × Json)) (hr : r ∈ (processComments source cs fs).written) :
    ∃ it : ProcessedItem, it.stored = false ∧ r = mkRecord (itemPairs it) source := by
  induction cs generalizing fs with
  | nil => exact absurd hr (List.not_mem_nil r)
  | cons c rest ih =>
    obtain ⟨b, lm, w, ts⟩ := c
    cases b with
    | notStr err =>
      simp only [processComments] at hr
      exact ih fs hr
    | absent =>
      simp only [processComments] at hr
      exact ih fs hr
    | str s =>
      by_cases h : pyStrip s = ""
      · simp only [processComments, h, if_true] at hr
        exact ih fs hr
      · simp only [processComments, h, if_false] at hr
        rw [List.mem_append] at hr
        rcases hr with hr | hr
        · by_cases hw :
            (store_result fs w (itemPairs ⟨pyStrip s, (analyze_with_ai lm).summary,
              (analyze_with_ai lm).sentiment, false, ts⟩) source).2 = true
          · rw [if_pos hw] at hr
            rw [List.mem_singleton] at hr
            exact ⟨⟨pyStrip s, (analyze_with_ai lm).summary,
              (analyze_with_ai lm).sentiment, false, ts⟩, rfl, hr⟩
          · rw [if_neg hw] at hr
            exact absurd hr (List.not_mem_nil r)
        · exact ih _ hr

/-- The response's `items`, `errors` and the written records, expressed
through the per-comment loop over the fetched comment list. -/
lemma run_pipeline_parts (httpResult : Except String (List CommentEnv))
    (email source processedAt : String) (fs0 : FileState) :
    (run_pipeline httpResult email source processedAt fs0).1.items
        = (processComments source (fetchedComments httpResult) fs0).items
      ∧ (run_pipeline httpResult email source processedAt fs0).1.errors.length
        = fetchErrorCount httpResult
          + (processComments source (fetchedComments httpResult) fs0).errors.length
      ∧ (run_pipeline httpResult email source processedAt fs0).2.2
        = (processComments source (fetchedComments httpResult) fs0).written := by
  cases httpResult with
  | ok data =>
    refine ⟨rfl, ?_, rfl⟩
    simp [run_pipeline, fetch_comments, fetchedComments, fetchErrorCount]
  | error e =>
    refine ⟨rfl, ?_, rfl⟩
    simp [run_pipeline, fetch_comments, fetchedComments, fetchErrorCount]
    omega

/-- Claim C1: in every pipeline run, each fetched comment is accounted for
exactly once: the number of items in the response, plus the number of
comments skipped as empty after stripping, plus the number of per-comment
error entries, equals the number of fetched comments (the response's
`errors` holding exactly the per-comment entries plus the fetch entry when
the fetch failed). -/
theorem claim_C1_accounting (httpResult : Except String (List CommentEnv))
    (email source processedAt : String) (fs0 : FileState) :
    (run_pipeline httpResult email source processedAt fs0).1.items.length
        + countSkip (fetchedComments httpResult)
        + (processComments source (fetchedComments httpResult) fs0).errors.length
      = (fetchedComments httpResult).length
    ∧ (run_pipeline httpResult email source processedAt fs0).1.errors.length
      = fetchErrorCount httpResult
        + (processComments source (fetchedComments httpResult) fs0).errors.length := by
  obtain ⟨hitems, herr, -⟩ := run_pipeline_parts httpResult email source processedAt fs0
  refine ⟨?_, herr⟩
  rw [hitems, processComments_items_length, processComments_errors_length]
  have := counts_partition (fetchedComments httpResult)
  omega

/-- Claim C2 (code behavior at the failing input): when the model call
succeeds but returns the sentiment string "Mixed", the pipeline's item
carries the sentiment "mixed" — lowercased but outside the three-value
enum, instead of falling back to "neutral" as the claim states. -/
theorem claim_C2_enum_violation :
    ((run_pipeline (.ok [mixedComment]) "user@example.com" "web" "T9"
        FileState.absent).1.items.map (fun it => it.sentiment)) = ["mixed"]
    ∧ "mixed" ∉ (["positive", "negative", "neutral"] : List String) := by
  exact ⟨rfl, by decide⟩

/-- Claim C3 (counterexample): when the fetch returns an empty comment
list, the response has `items = []` and `errors = []` as claimed, but
`notificationSent` is `true`, not `false`: `send_notification` always
returns `True`. -/
theorem claim_C3_counterexample :
    (run_pipeline (.ok []) "user@example.com" "web" "T9" FileState.absent).1.items = []
    ∧ (run_pipeline (.ok []) "user@example.com" "web" "T9" FileState.absent).1.errors = []
    ∧ ¬((run_pipeline (.ok []) "user@example.com" "web" "T9"
          FileState.absent).1.notificationSent = false) := by
  exact ⟨rfl, rfl, by decide⟩

/-- Claim C3 (amended): when the fetch returns an empty comment list, the
response has `items = []`, `errors = []`, and `notificationSent = true`
(the notifier is still invoked, with success flag false, and always
reports the notification as sent). -/
theorem claim_C3_amended (email source processedAt : String) (fs0 : FileState) :
    (run_pipeline (.ok []) email source processedAt fs0).1
      = ⟨[], true, processedAt, []⟩ := rfl

/-- Claim C4: whenever the language-model call fails or its content is
unparsable, `analyze_with_ai` returns normally with sentiment "neutral"
and a summary that is the fixed prefix "AI failed: " followed by at most
80 characters of diagnostic detail. -/
theorem claim_C4_degraded_analysis (err : String) :
    (analyze_with_ai (LMResponse.failure err)).sentiment = "neutral"
    ∧ ∃ d : String, (analyze_with_ai (LMResponse.failure err)).summary = "AI failed: " ++ d
        ∧ d.length ≤ 80 := by
  refine ⟨rfl, take80 err, rfl, ?_⟩
  show (err.data.take 80).length ≤ 80
  rw [List.length_take]
  exact Nat.min_le_left _ _

/-- Claim C5: if the source fetch fails, the run still returns a response
(the model function is total), with an empty `items` list and exactly one
error entry, the fetch error. -/
theorem claim_C5_fetch_failure (e email source processedAt : String) (fs0 : FileState) :
    (run_pipeline (.error e) email source processedAt fs0).1.items = []
    ∧ (run_pipeline (.error e) email source processedAt fs0).1.errors
        = ["Fetch failed: " ++ e] := ⟨rfl, rfl⟩

/-- Claim C6: if the persisted file exists but holds invalid JSON, the
next store treats the existing data as empty, writes a collection holding
only the new record, returns `True`, and (being a total function of the
model) raises nothing. -/
theorem claim_C6_corrupt_file (item : List (String × Json)) (source : String) :
    store_result FileState.corrupt true item source
      = (FileState.valid (Json.arr [Json.obj (mkRecord item source)]), true) := rfl

/-- Claim C7: for every prior persisted collection of length n and every
item, a successful store returns `True` and reloading the file yields a
parsed collection of length n + 1 whose last element is the stored item
merged with the `source` field. -/
theorem claim_C7_append_reload (l : List Json) (item : List (String × Json)) (source : String) :
    (store_result (FileState.valid (Json.arr l)) true item source).2 = true
    ∧ loadData (store_result (FileState.valid (Json.arr l)) true item source).1
        = some (l ++ [Json.obj (mkRecord item source)])
    ∧ (l ++ [Json.obj (mkRecord item source)]).length = l.length + 1
    ∧ (l ++ [Json.obj (mkRecord item source)]).getLast?
        = some (Json.obj (mkRecord item source)) := by
  refine ⟨rfl, rfl, by simp, List.getLast?_concat l⟩

/-- Claim C8 (counterexample): a run producing one response item whose
dictionary has no `source` key at all: the `source` field is merged only
into the record the Store persists, never into the response item. -/
theorem claim_C8_counterexample :
    ((run_pipeline (.ok [okComment]) "user@example.com" "web" "T9"
        FileState.absent).1.items.map (fun it => getField "source" (itemPairs it))) = [none]
    ∧ ((run_pipeline (.ok [okComment]) "user@example.com" "web" "T9"
        FileState.absent).1.items.length) = 1 := ⟨rfl, rfl⟩

/-- Claim C8 (amended): every ProcessedItem in the response carries
exactly the five fields original, analysis, sentiment, stored, timestamp
and no `source` field; the `source` field, equal to the request's source,
appears only on the records the Store persists, which carry those five
fields plus `source`. -/
theorem claim_C8_amended (httpResult : Except String (List CommentEnv))
    (email source processedAt : String) (fs0 : FileState) :
    (∀ it ∈ (run_pipeline httpResult email source processedAt fs0).1.items,
        (itemPairs it).map Prod.fst
            = ["original", "analysis", "sentiment", "stored", "timestamp"]
          ∧ getField "source" (itemPairs it) = none)
    ∧ (∀ r ∈ (run_pipeline httpResult email source processedAt fs0).2.2,
        r.map Prod.fst
            = ["original", "analysis", "sentiment", "stored", "timestamp", "source"]
          ∧ getField "source" r = some (Json.str source)) := by
  obtain ⟨-, -, hw⟩ := run_pipeline_parts httpResult email source processedAt fs0
  constructor
  · intro it _
    exact ⟨rfl, rfl⟩
  · intro r hr
    rw [hw] at hr
    obtain ⟨it, -, rfl⟩ := processComments_mem_written source
      (fetchedComments httpResult) fs0 r hr
    exact ⟨rfl, rfl⟩

/-- Claim C8 amended (witness): in a concrete run, the one response item
has exactly the five keys and no `source`, and the one persisted record
has the five keys plus `source = "web"`. -/
theorem claim_C8_amended_witness :
    ((itemPairs ⟨"hello world", "A greeting.", "positive", true, "T1"⟩).map Prod.fst
        = ["original", "analysis", "sentiment", "stored", "timestamp"]
      ∧ getField "source"
          (itemPairs ⟨"hello world", "A greeting.", "positive", true, "T1"⟩) = none)
    ∧ ((mkRecord (itemPairs ⟨"hello world", "A greeting.", "positive", false, "T1"⟩)
          "web").map Prod.fst
        = ["original", "analysis", "sentiment", "stored", "timestamp", "source"]
      ∧ getField "source"
          (mkRecord (itemPairs ⟨"hello world", "A greeting.", "positive", false, "T1"⟩)
            "web") = some (Json.str "web")) :=
  ⟨(claim_C8_amended (.ok [okComment]) "user@example.com" "web" "T9" FileState.absent).1
      ⟨"hello world", "A greeting.", "positive", true, "T1"⟩ (List.Mem.head _),
   (claim_C8_amended (.ok [okComment]) "user@example.com" "web" "T9" FileState.absent).2
      (mkRecord (itemPairs ⟨"hello world", "A greeting.", "positive", false, "T1"⟩) "web")
      (List.Mem.head _)⟩

/-- Claim C9: every ProcessedItem in the response has a non-empty
`original`; comments whose body is absent or whose stripped body is empty
are skipped silently, yielding neither an item (items count only the
processed comments) nor an error entry (error entries count only the
raising comments). -/
theorem claim_C9_original_nonempty (httpResult : Except String (List CommentEnv))
    (email source processedAt : String) (fs0 : FileState) :
    (∀ it ∈ (run_pipeline httpResult email source processedAt fs0).1.items,
        it.original ≠ "")
    ∧ (run_pipeline httpResult email source processedAt fs0).1.items.length
        = countProc (fetchedComments httpResult)
    ∧ (processComments source (fetchedComments httpResult) fs0).errors.length
        = countErr (fetchedComments httpResult) := by
  obtain ⟨hitems, -, -⟩ := run_pipeline_parts httpResult email source processedAt fs0
  refine ⟨?_, ?_, processComments_errors_length source _ fs0⟩
  · intro it hit
    rw [hitems] at hit
    exact processComments_mem_items source (fetchedComments httpResult) fs0 it hit
  · rw [hitems]
    exact processComments_items_length source _ fs0

/-- Claim C9 (witness): the item of a concrete run has non-empty original
text. -/
theorem claim_C9_witness :
    (⟨"hello world", "A greeting.", "positive", true, "T1"⟩ : ProcessedItem).original ≠ "" :=
  (claim_C9_original_nonempty (.ok [okComment]) "user@example.com" "web" "T9"
      FileState.absent).1
    ⟨"hello world", "A greeting.", "positive", true, "T1"⟩ (List.Mem.head _)

/-- Claim C10: every record a pipeline run appends to the persisted
collection has `stored` equal to `false`, because the record is merged
before the orchestrator overwrites the item's `stored` flag with the
store's result. -/
theorem claim_C10_stored_false (httpResult : Except String (List CommentEnv))
    (email source processedAt : String) (fs0 : FileState) :
    ∀ r ∈ (run_pipeline httpResult email source processedAt fs0).2.2,
      getField "stored" r = some (Json.bool false) := by
  intro r hr
  obtain ⟨-, -, hw⟩ := run_pipeline_parts httpResult email source processedAt fs0
  rw [hw] at hr
  obtain ⟨it, hst, rfl⟩ := processComments_mem_written source
    (fetchedComments httpResult) fs0 r hr
  show getField "stored" (mkRecord (itemPairs it) source) = some (Json.bool false)
  rw [show getField "stored" (mkRecord (itemPairs it) source)
      = some (Json.bool it.stored) from rfl, hst]

/-- Claim C10 (witness): in a concrete run the persisted record has
`stored = false` while the same item in the response reports
`stored = true`. -/
theorem claim_C10_witness :
    getField "stored"
        (mkRecord (itemPairs ⟨"hello world", "A greeting.", "positive", false, "T1"⟩) "web")
      = some (Json.bool false)
    ∧ ((run_pipeline (.ok [okComment]) "user@example.com" "web" "T9"
        FileState.absent).1.items.map (fun it => it.stored)) = [true] :=
  ⟨claim_C10_stored_false (.ok [okComment]) "user@example.com" "web" "T9" FileState.absent
      (mkRecord (itemPairs ⟨"hello world", "A greeting.", "positive", false, "T1"⟩) "web")
      (List.Mem.head _),
   rfl⟩
